import Mathlib

/-!
Verification of the star-creation core of the "Pain" starry-sky application.

The development shallowly embeds:
* the Postgres stored procedure `create_star_with_credit_check`
  (migration file, `src/unnamed/part_001`);
* the client-side creation flow: `handleSubmit` of `CreateStarModal`
  (`src/unnamed/part_006`), `deductStarCredit` / `getUserCredits`
  (`src/src/lib/paypal.ts`) and `handleCreateStar` with its placement
  loop (`src/src/App.tsx`);
* the music-player retry/backoff logic (`src/unnamed/part_008`).

Database state is a record of the tables the code touches: `stars`,
`user_credits` (user id paired with an integer credit count) and
`profiles` (user id paired with the `is_super_admin` flag), plus a
counter supplying fresh star ids.  JavaScript/SQL numerics are modelled
as rationals; all operands that reach `%` in the placement loop are
nonnegative, so JavaScript's truncating remainder coincides with the
floor-based remainder used here, and the strict comparison
`Math.sqrt(d) < 5` is embedded as `d < 25`, which is equivalent for
nonnegative `d`.
-/

/-- One row of the `stars` table. -/
structure StarRow where
  id : Nat
  star_name : String
  message : String
  x : ℚ
  y : ℚ
  size : ℚ
  brightness : ℚ
  profile_id : String
  sky_type : String
deriving DecidableEq, Repr

/-- The database state visible to the star-creation code: the `stars`
table, the `user_credits` table (user id, `star_credits`), the
`profiles` table (user id, `is_super_admin`), and a counter from which
fresh star ids are drawn. -/
structure DB where
  stars : List StarRow
  credits : List (String × Int)
  profiles : List (String × Bool)
  nextId : Nat
deriving DecidableEq, Repr

/-- Look a user's row up in a `user_credits` table. -/
def findCreditL (cr : List (String × Int)) (u : String) : Option Int :=
  (cr.find? (fun p => p.1 == u)).map (·.2)

/-- `SELECT star_credits FROM user_credits WHERE user_id = u` —
`none` when no row exists. -/
def findCredit (db : DB) (u : String) : Option Int :=
  findCreditL db.credits u

/-- `UPDATE user_credits SET star_credits = f star_credits WHERE user_id = u`. -/
def setCredit (credits : List (String × Int)) (u : String) (f : Int → Int) :
    List (String × Int) :=
  credits.map (fun p => if p.1 == u then (p.1, f p.2) else p)

/-- `EXISTS (SELECT 1 FROM stars WHERE star_name = n)`. -/
def nameExists (db : DB) (n : String) : Bool :=
  db.stars.any (fun s => s.star_name == n)

/-- `SELECT is_super_admin FROM profiles WHERE id = u`, with the client's
`data?.is_super_admin || false` defaulting (part_006, `checkSuperAdmin`). -/
def checkSuperAdmin (db : DB) (u : String) : Bool :=
  ((db.profiles.find? (fun p => p.1 == u)).map (·.2)).getD false

/-- Result of the stored procedure: the returned json object, with
`success = true` carrying `star_id` and `success = false` carrying the
`error` string. -/
inductive CreateResult where
  | success (star_id : Nat)
  | failure (error : String)
deriving DecidableEq, Repr

/-- Which storage operations of the procedure body raise an error
(`some msg` = the operation raises with `SQLERRM = msg`). -/
structure Faults where
  selectCredits : Option String
  insertCredits : Option String
  updateCredits : Option String
  insertStar : Option String
deriving DecidableEq, Repr

/-- No storage operation fails. -/
def noFaults : Faults := ⟨none, none, none, none⟩

/-- Raise the fault if one is configured for this operation. -/
def op (f : Option String) : Except String Unit :=
  match f with
  | some e => Except.error e
  | none => Except.ok ()

/-- The `INSERT INTO stars ... RETURNING id` step followed by the success
return: appends the new row (fresh id from the counter) and reports it. -/
def insertStarOp (f : Faults) (db : DB) (u n m : String) (x y sz br : ℚ)
    (sky : String) : Except String (CreateResult × DB) := do
  op f.insertStar
  let row : StarRow := ⟨db.nextId, n, m, x, y, sz, br, u, sky⟩
  pure (CreateResult.success db.nextId,
    { db with stars := db.stars ++ [row], nextId := db.nextId + 1 })

/-- The body of `create_star_with_credit_check` after the name pre-check
(the part covered by the `EXCEPTION WHEN OTHERS` handler).  A normal
`RETURN` is `Except.ok` (its state persists); a raised error is
`Except.error` (the handler rolls the whole block back). -/
def procBody (db : DB) (u n m : String) (x y sz br : ℚ) (sky : String)
    (isAdmin : Bool) (f : Faults) : Except String (CreateResult × DB) :=
  if isAdmin then
    insertStarOp f db u n m x y sz br sky
  else do
    op f.selectCredits
    match findCredit db u with
    | some c =>
      if c < 1 then
        pure (CreateResult.failure "Insufficient credits", db)
      else do
        op f.updateCredits
        let db2 := { db with credits := setCredit db.credits u (· - 1) }
        insertStarOp f db2 u n m x y sz br sky
    | none => do
      op f.insertCredits
      let db1 := { db with credits := (u, 0) :: db.credits }
      pure (CreateResult.failure "Insufficient credits", db1)

/-- `create_star_with_credit_check` (src/unnamed/part_001): name
pre-check, credit check/deduction unless `p_is_super_admin`, star
insert, with the catch-all exception handler returning
`json_build_object('success', false, 'error', SQLERRM)` and rolling the
block's effects back. -/
def create_star_with_credit_check (db : DB) (u n m : String)
    (x y sz br : ℚ) (sky : String) (isAdmin : Bool) (f : Faults) :
    CreateResult × DB :=
  if nameExists db n then
    (CreateResult.failure "Star name already exists", db)
  else
    match procBody db u n m x y sz br sky isAdmin f with
    | Except.ok r => r
    | Except.error e => (CreateResult.failure e, db)

/-- `data?.star_credits || 0` (paypal.ts, `getUserCredits`): a missing
`user_credits` row reads as balance 0. -/
def getUserCredits (db : DB) (u : String) : Int :=
  (findCredit db u).getD 0

example :
    create_star_with_credit_check ⟨[], [("u", 2)], [], 0⟩ "u" "Nova" "m"
      1 2 3 4 "general" false noFaults =
    (CreateResult.success 0,
      ⟨[⟨0, "Nova", "m", 1, 2, 3, 4, "u", "general"⟩], [("u", 1)], [], 1⟩) := by
  decide

/-! ## Client-side creation flow -/

/-- The read phase of `deductStarCredit` (paypal.ts): fetch the caller's
`user_credits` row. -/
def deductRead (db : DB) (u : String) : Option Int :=
  findCredit db u

/-- The write phase of `deductStarCredit` (paypal.ts): with the value
`read` obtained by the read phase, return `false` when the row was
missing or held fewer than 1 credit, otherwise store the absolute value
`read - 1` and return `true`. -/
def deductWrite (db : DB) (u : String) (read : Option Int) : Bool × DB :=
  match read with
  | none => (false, db)
  | some c =>
    if c < 1 then (false, db)
    else (true, { db with credits := setCredit db.credits u (fun _ => c - 1) })

/-- `deductStarCredit` (paypal.ts) run without interleaving: read the
row, then guard and write. -/
def deductStarCredit (db : DB) (u : String) : Bool × DB :=
  deductWrite db u (deductRead db u)

/-- JavaScript `%` for the nonnegative operands produced by the
placement loop (`a ≥ 0`, `b > 0`, where truncation equals floor). -/
def jsRem (a b : ℚ) : ℚ :=
  a - b * (⌊a / b⌋ : ℤ)

/-- The reserved UI-chrome test of `handleCreateStar` (App.tsx): with
window width `W`, `screenX = (x * W / 100) % W`, the candidate conflicts
when it falls in one of the three reserved corner regions. -/
def conflictsWithUI (W x y : ℚ) : Bool :=
  let screenX := jsRem (x * W / 100) W
  (decide (W * 0.75 < screenX) && decide (y < 35)) ||
  (decide (screenX < W * 0.25) && decide (y < 25)) ||
  (decide (W * 0.75 < screenX) && decide (75 < y))

/-- The minimum-distance test of `handleCreateStar` (App.tsx):
`Math.sqrt((sx-x)^2+(sy-y)^2) < 5`, embedded as the equivalent squared
comparison against `25`. -/
def tooCloseToExistingStar (stars : List StarRow) (x y : ℚ) : Bool :=
  stars.any (fun s => decide ((s.x - x) ^ 2 + (s.y - y) ^ 2 < (25 : ℚ)))

/-- A candidate survives both rejection tests of the placement loop. -/
def acceptableSpot (W : ℚ) (stars : List StarRow) (c : ℚ × ℚ) : Bool :=
  !conflictsWithUI W c.1 c.2 && !tooCloseToExistingStar stars c.1 c.2

/-- The `while (attempts < maxAttempts)` loop of `handleCreateStar`:
`cands i` is the `i`-th sampled coordinate pair, `attempts` the current
counter and `fuel` the remaining iterations (`maxAttempts - attempts`).
Returns the final value of `attempts` and the accepted candidate, if the
loop exited through `break`. -/
def placeLoop (W : ℚ) (stars : List StarRow) (cands : Nat → ℚ × ℚ) :
    Nat → Nat → Nat × Option (ℚ × ℚ)
  | attempts, 0 => (attempts, none)
  | attempts, fuel + 1 =>
    let c := cands attempts
    if acceptableSpot W stars c then (attempts + 1, some c)
    else placeLoop W stars cands (attempts + 1) fuel

/-- `maxAttempts` in `handleCreateStar`. -/
def maxAttempts : Nat := 100

/-- The abort message thrown by `handleCreateStar` when
`attempts >= maxAttempts`. -/
def crowdedMsg : String :=
  "Unable to find a suitable location for the star. The sky might be too crowded."

/-- `handleCreateStar` (App.tsx): run the placement loop; abort with the
"sky too crowded" error when `attempts >= maxAttempts`; otherwise insert
the new star directly into `stars` (the client path performs no name
check and no credit handling).  `insertFails` tells whether the storage
insert reports an error, in which case no row is persisted. -/
def handleCreateStar (db : DB) (u sky : String) (W : ℚ)
    (cands : Nat → ℚ × ℚ) (size brightness : ℚ) (starName message : String)
    (insertFails : Bool) : Except String DB :=
  match placeLoop W db.stars cands 0 maxAttempts with
  | (attempts, found) =>
    if maxAttempts ≤ attempts then Except.error crowdedMsg
    else
      match found with
      | none => Except.error crowdedMsg
      | some (x, y) =>
        if insertFails then Except.error "Failed to create star"
        else Except.ok { db with
          stars := db.stars ++
            [⟨db.nextId, starName, message, x, y, size, brightness, u, sky⟩],
          nextId := db.nextId + 1 }

/-- Outcome of the modal's `handleSubmit` (part_006). -/
inductive SubmitResult where
  | created
  | needCredits
  | emptyName
  | emptyMessage
  | nameTaken
  | deductFailed
  | createFailed (msg : String)
deriving DecidableEq, Repr

/-- `handleSubmit` of `CreateStarModal` (part_006) composed with
`handleCreateStar` (App.tsx: the modal's `onSubmit`): client-side credit
gate, input validation, client-side name check, `deductStarCredit` for
non-admins, then the placement-and-insert step.  A failure of the final
insert is caught by the surrounding `catch` after the credit was already
deducted.  The source applies `.trim()` to `starName` and `message`
before every use; since `String.trim` is not kernel-computable, the
embedding takes the already-trimmed values, so the source's
`starName.trim() === \x27\x27` guards become comparisons with the empty
string. -/
def handleSubmit (db : DB) (u : String) (isSuperAdmin : Bool)
    (starName message sky : String) (W : ℚ) (cands : Nat → ℚ × ℚ)
    (size brightness : ℚ) (insertFails : Bool) : SubmitResult × DB :=
  if !isSuperAdmin && decide (getUserCredits db u < 1) then
    (SubmitResult.needCredits, db)
  else if starName == "" then (SubmitResult.emptyName, db)
  else if message == "" then (SubmitResult.emptyMessage, db)
  else if nameExists db starName then (SubmitResult.nameTaken, db)
  else if isSuperAdmin then
    match handleCreateStar db u sky W cands size brightness
        starName message insertFails with
    | Except.ok db2 => (SubmitResult.created, db2)
    | Except.error e => (SubmitResult.createFailed e, db)
  else
    match deductStarCredit db u with
    | (false, db1) => (SubmitResult.deductFailed, db1)
    | (true, db1) =>
      match handleCreateStar db1 u sky W cands size brightness
          starName message insertFails with
      | Except.ok db2 => (SubmitResult.created, db2)
      | Except.error e => (SubmitResult.createFailed e, db1)

/-! ## Music-player retry/backoff (part_008) -/

/-- The fetch-retry state of the music player: the retry counter
(`retryCountRef`) and the current `fetchError` message. -/
structure MusicState where
  retryCount : Nat
  fetchError : Option String
deriving DecidableEq, Repr

/-- `MAX_RETRIES` in the music player. -/
def MAX_RETRIES : Nat := 5

/-- `BASE_RETRY_DELAY` in the music player (milliseconds). -/
def BASE_RETRY_DELAY : ℚ := 5000

/-- The terminal message set once the retry budget is exhausted. -/
def terminalErrorMsg : String :=
  "Unable to connect to the server. Please check your connection."

/-- The transient message set by `fetchPlaylist` before scheduling a
retry. -/
def transientErrorMsg : String := "Unable to load music. Retrying..."

/-- JavaScript `Math.min` on two rationals, kept executable. -/
def jsMin (a b : ℚ) : ℚ :=
  if a ≤ b then a else b

/-- `retryFetch` (part_008): when the counter has reached `MAX_RETRIES`,
set the terminal error and schedule nothing; otherwise schedule a retry
after `min(BASE_RETRY_DELAY * 2 ^ retryCount + jitter, 30000)` ms, where
`jitter` stands for the sampled `Math.random() * 1000`. -/
def retryFetch (s : MusicState) (jitter : ℚ) : MusicState × Option ℚ :=
  if MAX_RETRIES ≤ s.retryCount then
    ({ s with fetchError := some terminalErrorMsg }, none)
  else
    (s, some (jsMin (BASE_RETRY_DELAY * 2 ^ s.retryCount + jitter) 30000))

/-- A failing `fetchPlaylist` run: it sets a transient error message and
calls `retryFetch`. -/
def fetchFails (s : MusicState) (jitter : ℚ) : MusicState × Option ℚ :=
  retryFetch { s with fetchError := some transientErrorMsg } jitter

/-- A successful `fetchPlaylist` run: clears the error and resets the
retry counter to 0. -/
def fetchSucceeds (s : MusicState) : MusicState :=
  { s with retryCount := 0, fetchError := none }

/-- The scheduled retry timer firing: `retryCountRef.current++` before
`fetchPlaylist` runs again. -/
def timerFires (s : MusicState) : MusicState :=
  { s with retryCount := s.retryCount + 1 }

/-- A maximal all-failure episode: every fetch attempt fails, each
consuming one jitter sample; recording the scheduled delays in order and
stopping when `retryFetch` schedules nothing. -/
def allFailTrace : MusicState → List ℚ → List ℚ × MusicState
  | s, [] => ([], s)
  | s, j :: js =>
    match fetchFails s j with
    | (s1, none) => ([], s1)
    | (s1, some d) =>
      let r := allFailTrace (timerFires s1) js
      (d :: r.1, r.2)

/-- Modelled from the spec (the delay schedule the claim describes): the
`r`-th retry, counting from retry counter value `c`, is delayed by
`min(5000 * 2 ^ (c + r) + jitter_r, 30000)`, and no retry beyond counter
value 4 is scheduled. -/
def specDelays (c : Nat) : List ℚ → List ℚ
  | [] => []
  | j :: js =>
    if MAX_RETRIES ≤ c then []
    else jsMin (BASE_RETRY_DELAY * 2 ^ c + j) 30000 :: specDelays (c + 1) js

/-! ## Helper lemmas -/

theorem findCreditL_cons (q : String × Int) (l : List (String × Int))
    (u : String) :
    findCreditL (q :: l) u = if q.1 == u then some q.2 else findCreditL l u := by
  cases h : q.1 == u <;> simp [findCreditL, List.find?_cons, h]

theorem setCredit_cons (p : String × Int) (rest : List (String × Int))
    (u : String) (f : Int → Int) :
    setCredit (p :: rest) u f =
      (if p.1 == u then (p.1, f p.2) else p) :: setCredit rest u f := rfl

theorem findCreditL_setCredit (cr : List (String × Int)) (u : String)
    (f : Int → Int) :
    findCreditL (setCredit cr u f) u = (findCreditL cr u).map f := by
  induction cr with
  | nil => rfl
  | cons p rest ih =>
    rw [setCredit_cons]
    cases h : p.1 == u
    · rw [if_neg (by simp [h]), findCreditL_cons, findCreditL_cons, h, if_neg]
      · exact ih
      · simp
    · rw [if_pos (by simp_all), findCreditL_cons, findCreditL_cons, h]
      simp

theorem findCreditL_setCredit_other (cr : List (String × Int)) (u v : String)
    (f : Int → Int) (hvu : v ≠ u) :
    findCreditL (setCredit cr u f) v = findCreditL cr v := by
  induction cr with
  | nil => rfl
  | cons p rest ih =>
    rw [setCredit_cons]
    cases h : p.1 == u
    · rw [if_neg (by simp [h]), findCreditL_cons, findCreditL_cons, ih]
    · have hu : p.1 = u := by simpa using h
      have hv : (p.1 == v) = false := by simp [hu, Ne.symm hvu]
      rw [if_pos (by simp [h]), findCreditL_cons, findCreditL_cons]
      simp only [hv]
      simpa [hv] using ih

theorem findCreditL_cons_self (cr : List (String × Int)) (u : String)
    (c : Int) : findCreditL ((u, c) :: cr) u = some c := by
  rw [findCreditL_cons]
  simp

theorem findCreditL_cons_other (cr : List (String × Int)) (u v : String)
    (c : Int) (hvu : v ≠ u) :
    findCreditL ((u, c) :: cr) v = findCreditL cr v := by
  rw [findCreditL_cons]
  have : ((u, c).1 == v) = false := by simp [Ne.symm hvu]
  simp [this]

theorem create_star_unfold_nonadmin_some (db : DB) (u n m : String)
    (x y sz br : ℚ) (sky : String) (c : Int)
    (hname : nameExists db n = false)
    (hc : findCredit db u = some c) (h1 : ¬ c < 1) :
    create_star_with_credit_check db u n m x y sz br sky false noFaults =
      (CreateResult.success db.nextId,
        { db with
          credits := setCredit db.credits u (· - 1),
          stars := db.stars ++ [⟨db.nextId, n, m, x, y, sz, br, u, sky⟩],
          nextId := db.nextId + 1 }) := by
  simp [create_star_with_credit_check, procBody, insertStarOp, op, noFaults,
    hname, hc, h1, Bind.bind, Except.bind, Pure.pure, Except.pure]

theorem create_star_unfold_nameTaken (db : DB) (u n m : String)
    (x y sz br : ℚ) (sky : String) (a : Bool) (f : Faults)
    (hname : nameExists db n = true) :
    create_star_with_credit_check db u n m x y sz br sky a f =
      (CreateResult.failure "Star name already exists", db) := by
  simp [create_star_with_credit_check, hname]

theorem create_star_unfold_insufficient_some (db : DB) (u n m : String)
    (x y sz br : ℚ) (sky : String) (c : Int)
    (hname : nameExists db n = false)
    (hc : findCredit db u = some c) (h1 : c < 1) :
    create_star_with_credit_check db u n m x y sz br sky false noFaults =
      (CreateResult.failure "Insufficient credits", db) := by
  simp [create_star_with_credit_check, procBody, op, noFaults,
    hname, hc, h1, Bind.bind, Except.bind, Pure.pure, Except.pure]

theorem create_star_unfold_insufficient_none (db : DB) (u n m : String)
    (x y sz br : ℚ) (sky : String)
    (hname : nameExists db n = false)
    (hc : findCredit db u = none) :
    create_star_with_credit_check db u n m x y sz br sky false noFaults =
      (CreateResult.failure "Insufficient credits",
        { db with credits := (u, 0) :: db.credits }) := by
  simp [create_star_with_credit_check, procBody, op, noFaults,
    hname, hc, Bind.bind, Except.bind, Pure.pure, Except.pure]

theorem create_star_unfold_admin (db : DB) (u n m : String)
    (x y sz br : ℚ) (sky : String) (f : Faults)
    (hname : nameExists db n = false) (hf : f.insertStar = none) :
    create_star_with_credit_check db u n m x y sz br sky true f =
      (CreateResult.success db.nextId,
        { db with
          stars := db.stars ++ [⟨db.nextId, n, m, x, y, sz, br, u, sky⟩],
          nextId := db.nextId + 1 }) := by
  simp [create_star_with_credit_check, procBody, insertStarOp, op,
    hname, hf, Bind.bind, Except.bind, Pure.pure, Except.pure]

/-- C2: for a non-exempt requester with at least 1 credit and an unused
star name, `create_star_with_credit_check` returns `Success` with the
fresh star id, exactly one persisted star carries that id and its
attributes equal the request verbatim, and the requester's balance
decreases by exactly 1. -/
theorem star_creation_success_roundtrip (db : DB) (u n m : String)
    (x y sz br : ℚ) (sky : String) (c : Int)
    (hname : nameExists db n = false)
    (hc : findCredit db u = some c) (h1 : 1 ≤ c)
    (hfresh : ∀ s ∈ db.stars, s.id ≠ db.nextId) :
    (create_star_with_credit_check db u n m x y sz br sky false noFaults).1 =
      CreateResult.success db.nextId ∧
    (create_star_with_credit_check db u n m x y sz br sky false
        noFaults).2.stars.filter (fun s => s.id == db.nextId) =
      [⟨db.nextId, n, m, x, y, sz, br, u, sky⟩] ∧
    findCredit
        (create_star_with_credit_check db u n m x y sz br sky false
          noFaults).2 u = some (c - 1) := by
  have h1' : ¬ c < 1 := by omega
  rw [create_star_unfold_nonadmin_some db u n m x y sz br sky c hname hc h1']
  refine ⟨rfl, ?_, ?_⟩
  · have hnil : db.stars.filter (fun s => s.id == db.nextId) = [] :=
      List.filter_eq_nil_iff.mpr (fun s hs => by simp [hfresh s hs])
    simp [List.filter_append, hnil]
  · show findCreditL (setCredit db.credits u (· - 1)) u = some (c - 1)
    rw [findCreditL_setCredit]
    rw [show findCreditL db.credits u = some c from hc]
    rfl

/-- Witness for C2 at Scenario B of the spec: balance 2, name "Nova"
unused. -/
theorem star_creation_success_roundtrip_witness :
    nameExists ⟨[], [("u", 2)], [], 0⟩ "Nova" = false ∧
    findCredit ⟨[], [("u", 2)], [], 0⟩ "u" = some 2 ∧
    (1 : Int) ≤ 2 ∧
    (∀ s ∈ (⟨[], [("u", 2)], [], 0⟩ : DB).stars, s.id ≠ 0) ∧
    ((create_star_with_credit_check ⟨[], [("u", 2)], [], 0⟩ "u" "Nova" "m"
        1 2 3 4 "general" false noFaults).1 = CreateResult.success 0 ∧
      (create_star_with_credit_check ⟨[], [("u", 2)], [], 0⟩ "u" "Nova" "m"
          1 2 3 4 "general" false
          noFaults).2.stars.filter (fun s => s.id == 0) =
        [⟨0, "Nova", "m", 1, 2, 3, 4, "u", "general"⟩] ∧
      findCredit
          (create_star_with_credit_check ⟨[], [("u", 2)], [], 0⟩ "u" "Nova"
            "m" 1 2 3 4 "general" false noFaults).2 "u" = some (2 - 1)) :=
  ⟨by decide, by decide, by decide, by decide,
    star_creation_success_roundtrip ⟨[], [("u", 2)], [], 0⟩ "u" "Nova" "m"
      1 2 3 4 "general" 2 (by decide) (by decide) (by decide)
      (by decide)⟩

/-- C3: a request whose star name is already taken returns the
name-conflict result and leaves the state entirely unchanged, for every
exemption flag and every fault configuration; re-invoking on the
resulting state returns the same name-conflict result again (idempotent
rejection, never a duplicate insert). -/
theorem name_conflict_rejection_idempotent (db : DB) (u n m : String)
    (x y sz br : ℚ) (sky : String) (a : Bool) (f : Faults)
    (hname : nameExists db n = true) :
    create_star_with_credit_check db u n m x y sz br sky a f =
      (CreateResult.failure "Star name already exists", db) ∧
    create_star_with_credit_check
        (create_star_with_credit_check db u n m x y sz br sky a f).2
        u n m x y sz br sky a f =
      (CreateResult.failure "Star name already exists", db) := by
  have h := create_star_unfold_nameTaken db u n m x y sz br sky a f hname
  exact ⟨h, by
    rw [h]
    exact create_star_unfold_nameTaken db u n m x y sz br sky a f hname⟩

/-- Witness for C3 at Scenario E of the spec: "Nova" already exists,
balance 5. -/
theorem name_conflict_rejection_idempotent_witness :
    nameExists ⟨[⟨0, "Nova", "m", 1, 2, 3, 4, "v", "general"⟩],
        [("u", 5)], [], 1⟩ "Nova" = true ∧
    (create_star_with_credit_check ⟨[⟨0, "Nova", "m", 1, 2, 3, 4, "v",
          "general"⟩], [("u", 5)], [], 1⟩ "u" "Nova" "m2" 5 6 7 8
        "general" false noFaults =
      (CreateResult.failure "Star name already exists",
        ⟨[⟨0, "Nova", "m", 1, 2, 3, 4, "v", "general"⟩],
          [("u", 5)], [], 1⟩) ∧
    create_star_with_credit_check
        (create_star_with_credit_check ⟨[⟨0, "Nova", "m", 1, 2, 3, 4, "v",
            "general"⟩], [("u", 5)], [], 1⟩ "u" "Nova" "m2" 5 6 7 8
          "general" false noFaults).2 "u" "Nova" "m2" 5 6 7 8 "general"
        false noFaults =
      (CreateResult.failure "Star name already exists",
        ⟨[⟨0, "Nova", "m", 1, 2, 3, 4, "v", "general"⟩],
          [("u", 5)], [], 1⟩)) :=
  ⟨by decide,
    name_conflict_rejection_idempotent
      ⟨[⟨0, "Nova", "m", 1, 2, 3, 4, "v", "general"⟩], [("u", 5)], [], 1⟩
      "u" "Nova" "m2" 5 6 7 8 "general" false noFaults (by decide)⟩

/-- C4: a non-exempt requester whose balance reads below 1 (a missing
`user_credits` row reading as 0) with an unused star name receives
`InsufficientCredits`; no star is created and every user's readable
balance is unchanged.  (When the row was missing, the procedure lazily
inserts a zero-credit row, as specified by step 2a of the algorithm;
that row still reads as balance 0.) -/
theorem insufficient_credits_no_partial_effects (db : DB) (u n m : String)
    (x y sz br : ℚ) (sky : String)
    (hname : nameExists db n = false)
    (hbal : getUserCredits db u < 1) :
    (create_star_with_credit_check db u n m x y sz br sky false
        noFaults).1 = CreateResult.failure "Insufficient credits" ∧
    (create_star_with_credit_check db u n m x y sz br sky false
        noFaults).2.stars = db.stars ∧
    ∀ v, getUserCredits
        (create_star_with_credit_check db u n m x y sz br sky false
          noFaults).2 v = getUserCredits db v := by
  cases hfc : findCredit db u with
  | some c =>
    have hlt : c < 1 := by
      simpa [getUserCredits, hfc] using hbal
    rw [create_star_unfold_insufficient_some db u n m x y sz br sky c hname
      hfc hlt]
    exact ⟨rfl, rfl, fun v => rfl⟩
  | none =>
    rw [create_star_unfold_insufficient_none db u n m x y sz br sky hname hfc]
    refine ⟨rfl, rfl, fun v => ?_⟩
    by_cases hv : v = u
    · subst hv
      show (findCreditL ((v, 0) :: db.credits) v).getD 0 = _
      rw [findCreditL_cons_self]
      have : findCreditL db.credits v = none := hfc
      simp [getUserCredits, findCredit, this]
    · show (findCreditL ((u, 0) :: db.credits) v).getD 0 = _
      rw [findCreditL_cons_other db.credits u v 0 hv]
      rfl

/-- Witness for C4 at Scenario A of the spec: balance reads 0 (row
absent), name unused. -/
theorem insufficient_credits_no_partial_effects_witness :
    nameExists ⟨[], [], [], 0⟩ "Nova" = false ∧
    getUserCredits ⟨[], [], [], 0⟩ "u" < 1 ∧
    ((create_star_with_credit_check ⟨[], [], [], 0⟩ "u" "Nova" "m" 1 2 3 4
        "general" false noFaults).1 =
      CreateResult.failure "Insufficient credits" ∧
    (create_star_with_credit_check ⟨[], [], [], 0⟩ "u" "Nova" "m" 1 2 3 4
        "general" false noFaults).2.stars = ([] : List StarRow) ∧
    ∀ v, getUserCredits
        (create_star_with_credit_check ⟨[], [], [], 0⟩ "u" "Nova" "m" 1 2 3
          4 "general" false noFaults).2 v =
      getUserCredits ⟨[], [], [], 0⟩ v) :=
  ⟨by decide, by decide,
    insufficient_credits_no_partial_effects ⟨[], [], [], 0⟩ "u" "Nova" "m"
      1 2 3 4 "general" (by decide) (by decide)⟩

/-- C5: for an exempt requester (`p_is_super_admin = true`) the
procedure succeeds on an unused name without ever reading or writing the
`user_credits` table: the credits table is returned exactly as it was
(in particular no row is created when none exists), and replacing the
credits table by any other — including the empty one — changes neither
the result nor the star effects. -/
theorem exempt_never_touches_credits (db : DB) (u n m : String)
    (x y sz br : ℚ) (sky : String) (f : Faults)
    (hname : nameExists db n = false) (hf : f.insertStar = none) :
    (create_star_with_credit_check db u n m x y sz br sky true f).1 =
      CreateResult.success db.nextId ∧
    (create_star_with_credit_check db u n m x y sz br sky true
        f).2.credits = db.credits ∧
    ∀ cr2 : List (String × Int),
      (create_star_with_credit_check ⟨db.stars, cr2, db.profiles,
          db.nextId⟩ u n m x y sz br sky true f).1 =
        (create_star_with_credit_check db u n m x y sz br sky true f).1 ∧
      (create_star_with_credit_check ⟨db.stars, cr2, db.profiles,
          db.nextId⟩ u n m x y sz br sky true f).2.stars =
        (create_star_with_credit_check db u n m x y sz br sky true
          f).2.stars ∧
      (create_star_with_credit_check ⟨db.stars, cr2, db.profiles,
          db.nextId⟩ u n m x y sz br sky true f).2.credits = cr2 := by
  have h := create_star_unfold_admin db u n m x y sz br sky f hname hf
  refine ⟨by rw [h], by rw [h], fun cr2 => ?_⟩
  have h2 := create_star_unfold_admin ⟨db.stars, cr2, db.profiles,
    db.nextId⟩ u n m x y sz br sky f hname hf
  exact ⟨by rw [h, h2], by rw [h, h2], by rw [h2]⟩

/-- Witness for C5 at Scenario D of the spec: exempt, no `user_credits`
row at all, name unused. -/
theorem exempt_never_touches_credits_witness :
    nameExists ⟨[], [], [("u", true)], 0⟩ "Nova" = false ∧
    noFaults.insertStar = none ∧
    ((create_star_with_credit_check ⟨[], [], [("u", true)], 0⟩ "u" "Nova"
        "m" 1 2 3 4 "general" true noFaults).1 =
      CreateResult.success 0 ∧
    (create_star_with_credit_check ⟨[], [], [("u", true)], 0⟩ "u" "Nova"
        "m" 1 2 3 4 "general" true noFaults).2.credits =
      ([] : List (String × Int)) ∧
    ∀ cr2 : List (String × Int),
      (create_star_with_credit_check ⟨[], cr2, [("u", true)], 0⟩ "u"
          "Nova" "m" 1 2 3 4 "general" true noFaults).1 =
        (create_star_with_credit_check ⟨[], [], [("u", true)], 0⟩ "u"
          "Nova" "m" 1 2 3 4 "general" true noFaults).1 ∧
      (create_star_with_credit_check ⟨[], cr2, [("u", true)], 0⟩ "u"
          "Nova" "m" 1 2 3 4 "general" true noFaults).2.stars =
        (create_star_with_credit_check ⟨[], [], [("u", true)], 0⟩ "u"
          "Nova" "m" 1 2 3 4 "general" true noFaults).2.stars ∧
      (create_star_with_credit_check ⟨[], cr2, [("u", true)], 0⟩ "u"
          "Nova" "m" 1 2 3 4 "general" true noFaults).2.credits = cr2) :=
  ⟨by decide, by decide,
    exempt_never_touches_credits ⟨[], [], [("u", true)], 0⟩ "u" "Nova" "m"
      1 2 3 4 "general" noFaults (by decide) (by decide)⟩

theorem placeLoop_accept_first (W : ℚ) (stars : List StarRow)
    (cands : Nat → ℚ × ℚ) (att fuel : Nat)
    (h : acceptableSpot W stars (cands att) = true) :
    placeLoop W stars cands att (fuel + 1) = (att + 1, some (cands att)) := by
  simp [placeLoop, h]

theorem acceptableSpot_5050 : acceptableSpot 100 [] (50, 50) = true := by
  norm_num [acceptableSpot, conflictsWithUI, tooCloseToExistingStar, jsRem]

/-- C1 (failing path): the shipped client flow is not atomic.  With one
credit, an unused name and a first acceptable candidate, a failing
`stars` insert leaves the already-deducted credit deducted: the final
state holds balance 0 and no star — a decremented balance persisting
without the corresponding star row. -/
theorem client_flow_loses_credit_on_failed_insert :
    (handleSubmit ⟨[], [("u", 1)], [("u", false)], 0⟩ "u" false "Nova"
        "wish" "general" 100 (fun _ => (50, 50)) 2 1 true).1 =
      SubmitResult.createFailed "Failed to create star" ∧
    findCredit (handleSubmit ⟨[], [("u", 1)], [("u", false)], 0⟩ "u" false
        "Nova" "wish" "general" 100 (fun _ => (50, 50)) 2 1 true).2 "u" =
      some 0 ∧
    (handleSubmit ⟨[], [("u", 1)], [("u", false)], 0⟩ "u" false "Nova"
        "wish" "general" 100 (fun _ => (50, 50)) 2 1 true).2.stars = [] := by
  have hd : deductStarCredit ⟨[], [("u", 1)], [("u", false)], 0⟩ "u" =
      (true, ⟨[], [("u", 0)], [("u", false)], 0⟩) := by decide
  have hloop : placeLoop 100 [] (fun _ => ((50 : ℚ), (50 : ℚ))) 0 100 =
      (1, some (50, 50)) := by
    show placeLoop 100 [] (fun _ => ((50 : ℚ), (50 : ℚ))) 0 (99 + 1) =
      (1, some (50, 50))
    exact placeLoop_accept_first 100 [] (fun _ => ((50 : ℚ), (50 : ℚ))) 0 99
      acceptableSpot_5050
  have hcreate : handleCreateStar ⟨[], [("u", 0)], [("u", false)], 0⟩ "u"
      "general" 100 (fun _ => (50, 50)) 2 1 "Nova" "wish" true =
      Except.error "Failed to create star" := by
    simp [handleCreateStar, maxAttempts, hloop]
  have hsub : handleSubmit ⟨[], [("u", 1)], [("u", false)], 0⟩ "u" false
      "Nova" "wish" "general" 100 (fun _ => (50, 50)) 2 1 true =
      (SubmitResult.createFailed "Failed to create star",
        ⟨[], [("u", 0)], [("u", false)], 0⟩) := by
    have hgc : getUserCredits ⟨[], [("u", 1)], [("u", false)], 0⟩ "u" = 1 := by
      decide
    have hne : nameExists ⟨[], [("u", 1)], [("u", false)], 0⟩ "Nova" = false := by
      decide
    simp only [handleSubmit, hgc, hne, hd, hcreate]
    norm_num
    decide
  rw [hsub]
  exact ⟨rfl, by decide, rfl⟩

/-- C7 (failing interleaving): two concurrent `deductStarCredit` calls
against a balance of 1, interleaved as read–read–write–write, both
return `true` (two successes) while the final balance is 0 — so with
N = 1 the number of successes (2) exceeds N and successes + final
balance = 2 ≠ N.  The second write stores the absolute value computed
from its own stale read. -/
theorem interleaved_deduct_two_successes :
    (deductWrite ⟨[], [("u", 1)], [], 0⟩ "u"
        (deductRead ⟨[], [("u", 1)], [], 0⟩ "u")).1 = true ∧
    (deductWrite
        (deductWrite ⟨[], [("u", 1)], [], 0⟩ "u"
          (deductRead ⟨[], [("u", 1)], [], 0⟩ "u")).2 "u"
        (deductRead ⟨[], [("u", 1)], [], 0⟩ "u")).1 = true ∧
    findCredit
        (deductWrite
          (deductWrite ⟨[], [("u", 1)], [], 0⟩ "u"
            (deductRead ⟨[], [("u", 1)], [], 0⟩ "u")).2 "u"
          (deductRead ⟨[], [("u", 1)], [], 0⟩ "u")).2 "u" = some 0 := by
  decide

/-- C9 (counterexample): the procedure silently honors the
caller-supplied exemption flag.  With an authoritative `profiles` record
saying non-exempt and balance 5, the run with the caller flag `true`
succeeds without touching the balance (5), while the run differing only
in that flag deducts (4) — so the credit behaviour depends on the
caller-supplied flag, not on the Account record, and no mismatch denial
occurs. -/
theorem caller_exemption_flag_honored :
    checkSuperAdmin ⟨[], [("u", 5)], [("u", false)], 0⟩ "u" = false ∧
    (create_star_with_credit_check ⟨[], [("u", 5)], [("u", false)], 0⟩ "u"
        "Nova" "m" 1 2 3 4 "general" true noFaults).1 =
      CreateResult.success 0 ∧
    findCredit
        (create_star_with_credit_check ⟨[], [("u", 5)], [("u", false)], 0⟩
          "u" "Nova" "m" 1 2 3 4 "general" true noFaults).2 "u" =
      some 5 ∧
    findCredit
        (create_star_with_credit_check ⟨[], [("u", 5)], [("u", false)], 0⟩
          "u" "Nova" "m" 1 2 3 4 "general" false noFaults).2 "u" =
      some 4 := by
  decide

theorem create_star_ignores_profiles (st : List StarRow)
    (cr : List (String × Int)) (pr pr' : List (String × Bool)) (idn : Nat)
    (u n m : String) (x y sz br : ℚ) (sky : String) (a : Bool)
    (f : Faults) :
    create_star_with_credit_check ⟨st, cr, pr', idn⟩ u n m x y sz br sky
        a f =
      ((create_star_with_credit_check ⟨st, cr, pr, idn⟩ u n m x y sz br
          sky a f).1,
        { (create_star_with_credit_check ⟨st, cr, pr, idn⟩ u n m x y sz br
            sky a f).2 with profiles := pr' }) := by
  rcases f with ⟨fs, fi, fu, fst⟩
  simp only [create_star_with_credit_check, procBody, insertStarOp, op,
    nameExists, findCredit, findCreditL]
  cases hn : st.any (fun s => s.star_name == n) <;>
    cases a <;>
    cases fs <;> cases fi <;> cases fu <;> cases fst <;>
    rcases hfc : List.find? (fun p => p.1 == u) cr with _ | ⟨k, c⟩ <;>
    simp [hfc, Bind.bind, Except.bind, Pure.pure, Except.pure] <;>
    by_cases hc : c < 1 <;>
    simp [hc]

/-- C9 (amended): `create_star_with_credit_check` trusts the
caller-supplied `p_is_super_admin` flag and never consults the
`profiles` table: replacing the `profiles` table by anything changes
neither the result nor the star/credit effects, and a caller flag of
`true` skips the credit logic entirely (credits unchanged under every
fault configuration) regardless of the Account record.  The shipped
modal derives the flag it passes from `profiles.is_super_admin` via
`checkSuperAdmin`; nothing inside the operation re-validates it. -/
theorem exemption_flag_trusted_not_rederived (db : DB)
    (ps : List (String × Bool)) (u n m : String) (x y sz br : ℚ)
    (sky : String) (a : Bool) (f : Faults) :
    ((create_star_with_credit_check ⟨db.stars, db.credits, ps, db.nextId⟩
          u n m x y sz br sky a f).1 =
        (create_star_with_credit_check db u n m x y sz br sky a f).1 ∧
      (create_star_with_credit_check ⟨db.stars, db.credits, ps, db.nextId⟩
          u n m x y sz br sky a f).2.stars =
        (create_star_with_credit_check db u n m x y sz br sky a f).2.stars ∧
      (create_star_with_credit_check ⟨db.stars, db.credits, ps, db.nextId⟩
          u n m x y sz br sky a f).2.credits =
        (create_star_with_credit_check db u n m x y sz br sky a
          f).2.credits) ∧
    (create_star_with_credit_check db u n m x y sz br sky true
        f).2.credits = db.credits := by
  constructor
  · have h := create_star_ignores_profiles db.stars db.credits db.profiles
      ps db.nextId u n m x y sz br sky a f
    rw [show (⟨db.stars, db.credits, db.profiles, db.nextId⟩ : DB) = db
      from rfl] at h
    rw [h]
    exact ⟨rfl, rfl, rfl⟩
  · cases hn : nameExists db n <;> cases hf : f.insertStar <;>
      simp [create_star_with_credit_check, procBody, insertStarOp, op, hn,
        hf, Bind.bind, Except.bind, Pure.pure, Except.pure]

/-- The SQLERRM text of a Postgres unique-violation error, as surfaced
by the catch-all `EXCEPTION WHEN OTHERS` handler. -/
def dupKeyMsg : String := "duplicate key value violates unique constraint"

/-- Modelled from the spec: the `stars` table DDL (and with it the
uniqueness constraint on `star_name`) is not part of the repository
snapshot; per the spec, "final correctness rests on a uniqueness
constraint at the storage layer that causes the later of two racing
inserts to fail".  This insert raises a unique-violation error when a
row with the requested name is already committed at insert time, and
otherwise behaves as `insertStarOp`. -/
def insertStarConstrained (f : Faults) (db : DB) (u n m : String)
    (x y sz br : ℚ) (sky : String) : Except String (CreateResult × DB) := do
  op f.insertStar
  if nameExists db n then Except.error dupKeyMsg
  else
    pure (CreateResult.success db.nextId,
      { db with
        stars := db.stars ++ [⟨db.nextId, n, m, x, y, sz, br, u, sky⟩],
        nextId := db.nextId + 1 })

/-- The procedure body with the spec-modelled constrained insert. -/
def procBodyConstrained (db : DB) (u n m : String) (x y sz br : ℚ)
    (sky : String) (isAdmin : Bool) (f : Faults) :
    Except String (CreateResult × DB) :=
  if isAdmin then
    insertStarConstrained f db u n m x y sz br sky
  else do
    op f.selectCredits
    match findCredit db u with
    | some c =>
      if c < 1 then
        pure (CreateResult.failure "Insufficient credits", db)
      else do
        op f.updateCredits
        let db2 := { db with credits := setCredit db.credits u (· - 1) }
        insertStarConstrained f db2 u n m x y sz br sky
    | none => do
      op f.insertCredits
      let db1 := { db with credits := (u, 0) :: db.credits }
      pure (CreateResult.failure "Insufficient credits", db1)

/-- `create_star_with_credit_check` as executed by the later of two
racing transactions under read-committed isolation: the step-1 name
pre-check ran against the snapshot `snap` (taken before the earlier
racer committed), while every effect and the spec-modelled uniqueness
constraint see the current committed state `db`. -/
def create_star_racy (snap db : DB) (u n m : String) (x y sz br : ℚ)
    (sky : String) (isAdmin : Bool) (f : Faults) : CreateResult × DB :=
  if nameExists snap n then
    (CreateResult.failure "Star name already exists", db)
  else
    match procBodyConstrained db u n m x y sz br sky isAdmin f with
    | Except.ok r => r
    | Except.error e => (CreateResult.failure e, db)

/-- C6 (counterexample): in a race on the name "Nova" the later insert
does fail on the spec-modelled uniqueness constraint, but the catch-all
handler returns the raw SQL error — a generic `StorageFailure`-class
result — and not the procedure's name-conflict result, so the other
racer does not receive `NameConflict`. -/
theorem racing_insert_returns_generic_failure :
    (create_star_racy ⟨[], [("b", 3)], [], 0⟩
        ⟨[⟨0, "Nova", "m", 1, 2, 3, 4, "a", "general"⟩], [("b", 3)], [], 1⟩
        "b" "Nova" "m2" 5 6 7 8 "general" false noFaults).1 =
      CreateResult.failure dupKeyMsg ∧
    dupKeyMsg ≠ "Star name already exists" ∧
    (create_star_racy ⟨[], [("b", 3)], [], 0⟩
        ⟨[⟨0, "Nova", "m", 1, 2, 3, 4, "a", "general"⟩], [("b", 3)], [], 1⟩
        "b" "Nova" "m2" 5 6 7 8 "general" false noFaults).2 =
      ⟨[⟨0, "Nova", "m", 1, 2, 3, 4, "a", "general"⟩], [("b", 3)], [], 1⟩ := by
  decide

/-- C6 (amended): under the spec-modelled uniqueness constraint the
later racing insert fails and the handler rolls every effect back — the
credit decrement is undone, no second star appears — but the returned
result is the generic failure carrying the SQL error message, not the
name-conflict result. -/
theorem racing_insert_fails_and_rolls_back (snap db : DB)
    (u n m : String) (x y sz br : ℚ) (sky : String) (c : Int)
    (hsnap : nameExists snap n = false)
    (hdb : nameExists db n = true)
    (hc : findCredit db u = some c) (h1 : 1 ≤ c) :
    create_star_racy snap db u n m x y sz br sky false noFaults =
      (CreateResult.failure dupKeyMsg, db) := by
  have h1' : ¬ c < 1 := by omega
  have hsnap' : (snap.stars.any fun s => s.star_name == n) = false := by
    simpa [nameExists] using hsnap
  have hdb2 : ({ db with credits := setCredit db.credits u (· - 1) } :
      DB).stars.any (fun s => s.star_name == n) = true := by
    simpa [nameExists] using hdb
  simp [create_star_racy, procBodyConstrained, insertStarConstrained, op,
    noFaults, hsnap', hc, h1', nameExists, hdb2, Bind.bind, Except.bind,
    Pure.pure, Except.pure]

/-- Witness for the amended C6 at the concrete race from the
counterexample. -/
theorem racing_insert_fails_and_rolls_back_witness :
    nameExists ⟨[], [("b", 3)], [], 0⟩ "Nova" = false ∧
    nameExists ⟨[⟨0, "Nova", "m", 1, 2, 3, 4, "a", "general"⟩],
        [("b", 3)], [], 1⟩ "Nova" = true ∧
    findCredit ⟨[⟨0, "Nova", "m", 1, 2, 3, 4, "a", "general"⟩],
        [("b", 3)], [], 1⟩ "b" = some 3 ∧
    (1 : Int) ≤ 3 ∧
    create_star_racy ⟨[], [("b", 3)], [], 0⟩
        ⟨[⟨0, "Nova", "m", 1, 2, 3, 4, "a", "general"⟩], [("b", 3)], [], 1⟩
        "b" "Nova" "m2" 5 6 7 8 "general" false noFaults =
      (CreateResult.failure dupKeyMsg,
        ⟨[⟨0, "Nova", "m", 1, 2, 3, 4, "a", "general"⟩],
          [("b", 3)], [], 1⟩) :=
  ⟨by decide, by decide, by decide, by decide,
    racing_insert_fails_and_rolls_back ⟨[], [("b", 3)], [], 0⟩
      ⟨[⟨0, "Nova", "m", 1, 2, 3, 4, "a", "general"⟩], [("b", 3)], [], 1⟩
      "b" "Nova" "m2" 5 6 7 8 "general" 3 (by decide) (by decide)
      (by decide) (by decide)⟩

theorem allFailTrace_delays (js : List ℚ) : ∀ s : MusicState,
    (allFailTrace s js).1 = specDelays s.retryCount js := by
  induction js with
  | nil => intro s; rfl
  | cons j rest ih =>
    intro s
    by_cases h5 : MAX_RETRIES ≤ s.retryCount
    · simp [allFailTrace, fetchFails, retryFetch, specDelays, h5]
    · simp only [allFailTrace, fetchFails, retryFetch, if_neg h5, specDelays]
      simpa [timerFires] using ih ⟨s.retryCount + 1, some transientErrorMsg⟩

theorem specDelays_length (js : List ℚ) : ∀ c : Nat,
    (specDelays c js).length ≤ MAX_RETRIES - c := by
  induction js with
  | nil => intro c; simp [specDelays]
  | cons j rest ih =>
    intro c
    by_cases h5 : MAX_RETRIES ≤ c
    · simp [specDelays, h5]
    · have := ih (c + 1)
      simp only [specDelays, if_neg h5, List.length_cons]
      unfold MAX_RETRIES at *
      omega

theorem allFailTrace_terminal (js : List ℚ) : ∀ s : MusicState,
    s.retryCount ≤ MAX_RETRIES → MAX_RETRIES - s.retryCount < js.length →
    (allFailTrace s js).2 = ⟨MAX_RETRIES, some terminalErrorMsg⟩ := by
  induction js with
  | nil =>
    intro s _ h
    simp at h
  | cons j rest ih =>
    intro s hle hlen
    by_cases h5 : MAX_RETRIES ≤ s.retryCount
    · have hc : s.retryCount = MAX_RETRIES := le_antisymm hle h5
      simp [allFailTrace, fetchFails, retryFetch, h5, hc]
    · have h1 : s.retryCount + 1 ≤ MAX_RETRIES := by omega
      have h2 : MAX_RETRIES - (s.retryCount + 1) < rest.length := by
        simp only [List.length_cons] at hlen
        omega
      simp only [allFailTrace, fetchFails, retryFetch, if_neg h5]
      simpa [timerFires] using
        ih ⟨s.retryCount + 1, some transientErrorMsg⟩ h1 h2

/-- C10: after a failed playlist fetch, the scheduled retry delays
follow exactly the spec schedule `specDelays` — the `r`-th retry is
delayed by `min(5000 * 2 ^ r + jitter_r, 30000)` ms — at most 5 retries
are ever scheduled in an all-failure episode, after 6 consecutive
failures the state is the terminal connection-error message with
counter 5, a counter at 5 schedules nothing further and sets the
terminal message, and a successful fetch resets the counter to 0. -/
theorem music_retry_backoff_schedule :
    (∀ js : List ℚ, (allFailTrace ⟨0, none⟩ js).1 = specDelays 0 js) ∧
    (∀ js : List ℚ, (allFailTrace ⟨0, none⟩ js).1.length ≤ 5) ∧
    (∀ js : List ℚ, 6 ≤ js.length →
      (allFailTrace ⟨0, none⟩ js).2 = ⟨5, some terminalErrorMsg⟩) ∧
    (∀ (s : MusicState) (j : ℚ), 5 ≤ s.retryCount →
      (retryFetch s j).2 = none ∧
        (retryFetch s j).1.fetchError = some terminalErrorMsg) ∧
    (∀ s : MusicState, (fetchSucceeds s).retryCount = 0) := by
  refine ⟨fun js => allFailTrace_delays js ⟨0, none⟩, fun js => ?_,
    fun js h => allFailTrace_terminal js ⟨0, none⟩ (by simp [MAX_RETRIES])
      (by simpa [MAX_RETRIES] using h), fun s j h5 => ?_, fun s => rfl⟩
  · rw [allFailTrace_delays js ⟨0, none⟩]
    simpa [MAX_RETRIES] using specDelays_length js 0
  · have : MAX_RETRIES ≤ s.retryCount := by simpa [MAX_RETRIES] using h5
    simp [retryFetch, this]

/-- Witness for C10: six consecutive failures reach the terminal
connection-error state with all five retries consumed. -/
theorem music_retry_backoff_schedule_witness :
    6 ≤ ([0, 0, 0, 0, 0, 0] : List ℚ).length ∧
    (allFailTrace ⟨0, none⟩ ([0, 0, 0, 0, 0, 0] : List ℚ)).2 =
      ⟨5, some terminalErrorMsg⟩ :=
  ⟨by decide,
    music_retry_backoff_schedule.2.2.1 ([0, 0, 0, 0, 0, 0] : List ℚ)
      (by decide)⟩

theorem placeLoop_le (W : ℚ) (stars : List StarRow) (cands : Nat → ℚ × ℚ) :
    ∀ fuel att, (placeLoop W stars cands att fuel).1 ≤ att + fuel := by
  intro fuel
  induction fuel with
  | zero => intro att; simp [placeLoop]
  | succ f ih =>
    intro att
    by_cases h : acceptableSpot W stars (cands att) = true
    · simp [placeLoop, h]
    · have h' : acceptableSpot W stars (cands att) = false := by
        cases hh : acceptableSpot W stars (cands att)
        · rfl
        · exact absurd hh h
      simp only [placeLoop, h', Bool.false_eq_true, if_false]
      have := ih (att + 1)
      omega

theorem placeLoop_none_eq (W : ℚ) (stars : List StarRow)
    (cands : Nat → ℚ × ℚ) : ∀ fuel att,
    (placeLoop W stars cands att fuel).2 = none →
    (placeLoop W stars cands att fuel).1 = att + fuel := by
  intro fuel
  induction fuel with
  | zero => intro att _; simp [placeLoop]
  | succ f ih =>
    intro att hnone
    by_cases h : acceptableSpot W stars (cands att) = true
    · simp [placeLoop, h] at hnone
    · have h' : acceptableSpot W stars (cands att) = false := by
        cases hh : acceptableSpot W stars (cands att)
        · rfl
        · exact absurd hh h
      simp only [placeLoop, h', Bool.false_eq_true, if_false] at hnone ⊢
      have := ih (att + 1) hnone
      omega

theorem placeLoop_all_reject (W : ℚ) (stars : List StarRow)
    (cands : Nat → ℚ × ℚ) : ∀ fuel att,
    (∀ k, k + 1 < fuel → acceptableSpot W stars (cands (att + k)) = false) →
    (placeLoop W stars cands att fuel).1 = att + fuel := by
  intro fuel
  induction fuel with
  | zero => intro att _; simp [placeLoop]
  | succ f ih =>
    intro att h
    by_cases h0 : acceptableSpot W stars (cands att) = true
    · rcases Nat.eq_zero_or_pos f with hf | hf
      · subst hf
        simp [placeLoop, h0]
      · have := h 0 (by omega)
        rw [Nat.add_zero] at this
        rw [this] at h0
        exact absurd h0 (by simp)
    · have h0' : acceptableSpot W stars (cands att) = false := by
        cases hh : acceptableSpot W stars (cands att)
        · rfl
        · exact absurd hh h0
      simp only [placeLoop, h0', Bool.false_eq_true, if_false]
      have hrec := ih (att + 1) (fun k hk => by
        have := h (k + 1) (by omega)
        rwa [show att + (k + 1) = att + 1 + k by omega] at this)
      omega

theorem placeLoop_le_of_accept (W : ℚ) (stars : List StarRow)
    (cands : Nat → ℚ × ℚ) : ∀ fuel att k, k < fuel →
    acceptableSpot W stars (cands (att + k)) = true →
    (placeLoop W stars cands att fuel).1 ≤ att + k + 1 := by
  intro fuel
  induction fuel with
  | zero => intro att k hk; omega
  | succ f ih =>
    intro att k hk hacc
    by_cases h0 : acceptableSpot W stars (cands att) = true
    · simp [placeLoop, h0]
    · have h0' : acceptableSpot W stars (cands att) = false := by
        cases hh : acceptableSpot W stars (cands att)
        · rfl
        · exact absurd hh h0
      rcases Nat.eq_zero_or_pos k with hk0 | hkpos
      · subst hk0
        rw [Nat.add_zero] at hacc
        rw [hacc] at h0'
        cases h0'
      · simp only [placeLoop, h0', Bool.false_eq_true, if_false]
        have := ih (att + 1) (k - 1) (by omega) (by
          rwa [show att + 1 + (k - 1) = att + k by omega])
        omega

theorem placeLoop_last_accept (W : ℚ) (stars : List StarRow)
    (cands : Nat → ℚ × ℚ) : ∀ fuel att, 0 < fuel →
    (∀ k, k + 1 < fuel → acceptableSpot W stars (cands (att + k)) = false) →
    acceptableSpot W stars (cands (att + fuel - 1)) = true →
    placeLoop W stars cands att fuel =
      (att + fuel, some (cands (att + fuel - 1))) := by
  intro fuel
  induction fuel with
  | zero => intro att h; omega
  | succ f ih =>
    intro att _ hrej hacc
    rcases Nat.eq_zero_or_pos f with hf | hf
    · subst hf
      have : att + 1 - 1 = att := by omega
      rw [this] at hacc
      simp [placeLoop, hacc]
    · have h0 : acceptableSpot W stars (cands att) = false := by
        have := hrej 0 (by omega)
        rwa [Nat.add_zero] at this
      simp only [placeLoop, h0, Bool.false_eq_true, if_false]
      have hrec := ih (att + 1) hf (fun k hk => by
        have := hrej (k + 1) (by omega)
        rwa [show att + (k + 1) = att + 1 + k by omega] at this) (by
        rwa [show att + 1 + f - 1 = att + (f + 1) - 1 by omega])
      rw [hrec, show att + 1 + f = att + (f + 1) by omega]

theorem placeLoop_congr (W : ℚ) (stars : List StarRow)
    (cands cands' : Nat → ℚ × ℚ) : ∀ fuel att,
    (∀ i, att ≤ i → i < att + fuel → cands i = cands' i) →
    placeLoop W stars cands att fuel = placeLoop W stars cands' att fuel := by
  intro fuel
  induction fuel with
  | zero => intro att _; rfl
  | succ f ih =>
    intro att h
    have h0 : cands att = cands' att := h att (le_refl att) (by omega)
    simp only [placeLoop, h0]
    by_cases hacc : acceptableSpot W stars (cands' att) = true
    · simp [hacc]
    · have hacc' : acceptableSpot W stars (cands' att) = false := by
        cases hh : acceptableSpot W stars (cands' att)
        · rfl
        · exact absurd hh hacc
      simp only [hacc', Bool.false_eq_true, if_false]
      exact ih (att + 1) (fun i hi1 hi2 => h i (by omega) (by omega))

theorem handleCreateStar_crowded_iff (db : DB) (u sky : String) (W : ℚ)
    (cands : Nat → ℚ × ℚ) (size brightness : ℚ) (nm msg : String)
    (insertFails : Bool) :
    handleCreateStar db u sky W cands size brightness nm msg insertFails =
      Except.error crowdedMsg ↔
    (placeLoop W db.stars cands 0 maxAttempts).1 = maxAttempts := by
  rcases hp : placeLoop W db.stars cands 0 maxAttempts with ⟨att, found⟩
  have hatt_le : att ≤ maxAttempts := by
    have h := placeLoop_le W db.stars cands maxAttempts 0
    rw [hp] at h
    simpa using h
  simp only [handleCreateStar, hp]
  by_cases h : maxAttempts ≤ att
  · simp only [if_pos h]
    exact ⟨fun _ => by omega, fun _ => by trivial⟩
  · simp only [if_neg h]
    cases found with
    | none =>
      have h2 := placeLoop_none_eq W db.stars cands maxAttempts 0
        (by rw [hp])
      rw [hp] at h2
      simp at h2
      omega
    | some xy =>
      rcases xy with ⟨x, y⟩
      dsimp only
      constructor
      · intro habs
        by_cases hins : insertFails = true
        · rw [if_pos hins] at habs
          have : "Failed to create star" = crowdedMsg :=
            Except.error.inj habs
          exact absurd this (by decide)
        · rw [if_neg hins] at habs
          exact Except.noConfusion habs
      · intro heq
        omega

/-- C8 (amended): the placement pre-filter consults at most the first
100 sampled candidates, accepts a candidate exactly when it avoids the
reserved UI regions and lies at squared distance at least 25 (Euclidean
distance at least 5) from every known star, and aborts with the "sky
too crowded" error — never reaching the insert — if and only if none of
the FIRST 99 samples is acceptable: a candidate that is first acceptable
at the 100th sample is accepted by the loop but the `attempts >=
maxAttempts` check still aborts. -/
theorem placement_prefilter_behavior (db : DB) (u sky : String) (W : ℚ)
    (cands cands' : Nat → ℚ × ℚ) (size brightness : ℚ) (nm msg : String)
    (insertFails : Bool) :
    (handleCreateStar db u sky W cands size brightness nm msg insertFails =
        Except.error crowdedMsg ↔
      ∀ i, i < 99 → acceptableSpot W db.stars (cands i) = false) ∧
    ((∀ i, i < 100 → cands i = cands' i) →
      handleCreateStar db u sky W cands size brightness nm msg
          insertFails =
        handleCreateStar db u sky W cands' size brightness nm msg
          insertFails) ∧
    (∀ x y : ℚ, acceptableSpot W db.stars (x, y) = true →
      conflictsWithUI W x y = false ∧
      ∀ s ∈ db.stars, (25 : ℚ) ≤ (s.x - x) ^ 2 + (s.y - y) ^ 2) := by
  refine ⟨?_, ?_, ?_⟩
  · rw [handleCreateStar_crowded_iff]
    constructor
    · intro h100 i hi
      by_contra hacc
      have hacc' : acceptableSpot W db.stars (cands i) = true := by
        cases hh : acceptableSpot W db.stars (cands i)
        · exact absurd hh hacc
        · rfl
      have hle := placeLoop_le_of_accept W db.stars cands maxAttempts 0 i
        (by simp [maxAttempts]; omega) (by simpa using hacc')
      simp only [Nat.zero_add] at hle
      rw [h100] at hle
      simp [maxAttempts] at hle
      omega
    · intro hall
      have := placeLoop_all_reject W db.stars cands maxAttempts 0
        (fun k hk => by
          have hk99 : k < 99 := by
            simp [maxAttempts] at hk
            omega
          simpa using hall k hk99)
      simpa using this
  · intro hsame
    have hcongr := placeLoop_congr W db.stars cands cands' maxAttempts 0
      (fun i _ h2 => hsame i (by simpa [maxAttempts] using h2))
    simp only [handleCreateStar, hcongr]
  · intro x y hacc
    have h1 : conflictsWithUI W x y = false ∧
        tooCloseToExistingStar db.stars x y = false := by
      constructor
      · cases hh : conflictsWithUI W x y
        · rfl
        · simp [acceptableSpot, hh] at hacc
      · cases hh : tooCloseToExistingStar db.stars x y
        · rfl
        · simp [acceptableSpot, hh] at hacc
    refine ⟨h1.1, fun s hs => ?_⟩
    have h2 := h1.2
    rw [tooCloseToExistingStar, List.any_eq_false] at h2
    have := h2 s hs
    simp at this
    linarith

/-- Witness for C8 (amended), exercising the bounded-sampling conjunct
at a concrete candidate stream. -/
theorem placement_prefilter_behavior_witness :
    (∀ i : Nat, i < 100 →
      (fun _ : Nat => ((0 : ℚ), (0 : ℚ))) i =
        (fun _ : Nat => ((0 : ℚ), (0 : ℚ))) i) ∧
    handleCreateStar ⟨[], [], [], 0⟩ "u" "general" 100
        (fun _ => (0, 0)) 2 1 "Nova" "m" false =
      handleCreateStar ⟨[], [], [], 0⟩ "u" "general" 100
        (fun _ => (0, 0)) 2 1 "Nova" "m" false :=
  ⟨fun _ _ => rfl,
    (placement_prefilter_behavior ⟨[], [], [], 0⟩ "u" "general" 100
        (fun _ => (0, 0)) (fun _ => (0, 0)) 2 1 "Nova" "m" false).2.1
      (fun _ _ => rfl)⟩

/-- A candidate stream whose first 99 samples land in a reserved UI
region and whose 100th sample is acceptable. -/
def cands99 : Nat → ℚ × ℚ := fun i => if i < 99 then (80, 30) else (50, 50)

theorem acceptableSpot_8030 : acceptableSpot 100 [] (80, 30) = false := by
  norm_num [acceptableSpot, conflictsWithUI, tooCloseToExistingStar, jsRem]

/-- C8 (counterexample): with 99 unacceptable samples followed by an
acceptable 100th, the loop finds and accepts the acceptable candidate
within the bound of 100 samples, yet `handleCreateStar` still aborts
with the "sky too crowded" error — refuting "aborts if and only if no
acceptable candidate was found within the bound". -/
theorem placement_aborts_despite_acceptable_candidate :
    handleCreateStar ⟨[], [], [], 0⟩ "u" "general" 100 cands99 2 1 "Nova"
        "m" false = Except.error crowdedMsg ∧
    acceptableSpot 100 [] (cands99 99) = true ∧
    (placeLoop 100 [] cands99 0 100).2 = some (cands99 99) := by
  have h5050 : cands99 99 = ((50 : ℚ), (50 : ℚ)) := by
    simp [cands99]
  have hbad : ∀ k, k + 1 < 100 →
      acceptableSpot 100 ([] : List StarRow) (cands99 (0 + k)) = false := by
    intro k hk
    have hc : cands99 (0 + k) = ((80 : ℚ), (30 : ℚ)) := by
      have h99 : 0 + k < 99 := by omega
      simp only [cands99, if_pos h99]
    rw [hc]
    exact acceptableSpot_8030
  have hgood : acceptableSpot 100 ([] : List StarRow)
      (cands99 (0 + 100 - 1)) = true := by
    have : (0 + 100 - 1 : Nat) = 99 := rfl
    rw [this, h5050]
    exact acceptableSpot_5050
  have hloop := placeLoop_last_accept 100 [] cands99 100 0 (by omega)
    hbad hgood
  refine ⟨?_, ?_, ?_⟩
  · apply (handleCreateStar_crowded_iff ⟨[], [], [], 0⟩ "u" "general" 100
      cands99 2 1 "Nova" "m" false).mpr
    show (placeLoop 100 [] cands99 0 maxAttempts).1 = maxAttempts
    rw [show maxAttempts = 100 from rfl, hloop]
  · rw [h5050]
    exact acceptableSpot_5050
  · rw [show (100 : Nat) = maxAttempts from rfl] at hloop ⊢
    rw [hloop]
    rfl

theorem procedure_rolls_back_on_insert_fault (db : DB) (u n m : String)
    (x y sz br : ℚ) (sky : String) (c : Int) (e : String)
    (hname : nameExists db n = false)
    (hc : findCredit db u = some c) (h1 : ¬ c < 1) :
    create_star_with_credit_check db u n m x y sz br sky false
        ⟨none, none, none, some e⟩ = (CreateResult.failure e, db) := by
  simp [create_star_with_credit_check, procBody, insertStarOp, op, hname,
    hc, h1, Bind.bind, Except.bind, Pure.pure, Except.pure]
